import Mathlib

/-!
Shallow embedding of the aim-trainer core (source files
`src/unnamed/part_000` (App, game logic), `src/unnamed/part_001`
(constants), and the types module bundled with the components).

Modelling conventions:
* JavaScript numbers are exact rationals (`ℚ`); counters are `ℕ`.
* Target ids (`Math.random().toString(36).substr(2, 9)` in the source)
  are opaque tokens modelled as `ℕ`; nothing guarantees distinctness,
  mirroring the collision-prone random ids of the source.
* Each call of `Math.random()` is an explicit parameter `r` with the
  side condition `0 ≤ r < 1` (`ValidRand`).
* Euclidean distances are represented by their squares throughout:
  the source compares `sphereCenter.distanceTo(ray.origin)` values and
  squaring is strictly monotone on nonnegative reals, so the selection
  of the minimum and all equalities are unchanged, and the squared
  value determines the source's distance uniquely.  `THREE.Ray`'s
  `intersectsSphere`/`distanceSqToPoint` are already squared in the
  original library code and are embedded verbatim.
-/

namespace AimLab

/-- A 3-component vector of exact rationals (`THREE.Vector3`). -/
structure Vec3 where
  x : ℚ
  y : ℚ
  z : ℚ
deriving DecidableEq

/-- Componentwise difference (`Vector3.subVectors`). -/
def vsub (a b : Vec3) : Vec3 := ⟨a.x - b.x, a.y - b.y, a.z - b.z⟩

/-- Dot product (`Vector3.dot`). -/
def vdot (a b : Vec3) : ℚ := a.x * b.x + a.y * b.y + a.z * b.z

/-- Squared Euclidean distance (`Vector3.distanceToSquared`). -/
def sqDist (a b : Vec3) : ℚ := vdot (vsub a b) (vsub a b)

/-- `Vector3.addScaledVector`: `a + d * s`. -/
def vaddScaled (a d : Vec3) (s : ℚ) : Vec3 :=
  ⟨a.x + d.x * s, a.y + d.y * s, a.z + d.z * s⟩

/-- A ray with an origin and a (normalized) direction (`THREE.Ray`). -/
structure Ray where
  origin : Vec3
  direction : Vec3
deriving DecidableEq

/-- `THREE.Ray.distanceSqToPoint`: squared distance from a point to the
half-line; if the projection parameter is negative the origin is the
closest point. -/
def distanceSqToPoint (r : Ray) (p : Vec3) : ℚ :=
  let dd := vdot (vsub p r.origin) r.direction
  if dd < 0 then sqDist r.origin p
  else sqDist (vaddScaled r.origin r.direction dd) p

/-- `THREE.Ray.intersectsSphere`: the squared distance from the center
to the ray is at most the squared radius. -/
def intersectsSphere (r : Ray) (center : Vec3) (radius : ℚ) : Prop :=
  distanceSqToPoint r center ≤ radius * radius

instance (r : Ray) (c : Vec3) (rad : ℚ) : Decidable (intersectsSphere r c rad) :=
  inferInstanceAs (Decidable (_ ≤ _))

/-! Constants from `src/unnamed/part_001`. -/

def GAME_DURATION : ℚ := 60
def MAX_TARGETS : ℕ := 6
def SPAWN_AREA_WIDTH : ℚ := 10
def SPAWN_AREA_HEIGHT : ℚ := 6
def SPAWN_DISTANCE : ℚ := 12
def TARGET_RADIUS : ℚ := 0.5

/-! Types from the `types` module. -/

/-- The four session states (`GameState` enum). -/
inductive GameState where
  | MENU
  | PLAYING
  | PAUSED
  | FINISHED
deriving DecidableEq

/-- Crosshair styles (`CrosshairType`). -/
inductive CrosshairType where
  | dot
  | cross
  | circle
  | plus
deriving DecidableEq

/-- UI languages (`Language`). -/
inductive Language where
  | en
  | zh
deriving DecidableEq

/-- `GameSettings` record. -/
structure GameSettings where
  targetCount : ℕ
  targetSize : ℚ
  duration : ℚ
  crosshair : CrosshairType
  sensitivity : ℚ
  language : Language
deriving DecidableEq

/-- `TargetData` record; the id is an opaque token. -/
structure TargetData where
  id : ℕ
  position : Vec3
  createdAt : ℚ
  spawnTime : ℚ
deriving DecidableEq

/-- `HitData` record; `distance` carries the squared origin-to-center
distance (see the module header for the squared-distance convention). -/
structure HitData where
  time : ℚ
  reactionTime : ℚ
  distance : ℚ
deriving DecidableEq

/-- `ScoreStats` record. -/
structure ScoreStats where
  score : ℕ
  shotsFired : ℕ
  shotsHit : ℕ
  accuracy : ℚ
  avgReactionTime : ℚ
  hitHistory : List HitData
deriving DecidableEq

/-- `DEFAULT_SETTINGS` from `src/unnamed/part_000` lines 110-117. -/
def DEFAULT_SETTINGS : GameSettings :=
  { targetCount := 3
    targetSize := TARGET_RADIUS
    duration := 60
    crosshair := CrosshairType.dot
    sensitivity := 1
    language := Language.zh }

/-- `generateTarget` (lines 119-132): `r1`, `r2` are the two
`Math.random()` draws, `newId` the random id token and `now` the value
of `Date.now()` at the call.  The `currentList` argument is accepted
and ignored exactly as in the source. -/
def generateTarget (currentList : List TargetData) (r1 r2 : ℚ) (newId : ℕ)
    (now : ℚ) : TargetData :=
  { id := newId
    position :=
      { x := (r1 - 0.5) * SPAWN_AREA_WIDTH
        y := 1.2 + r2 * 2.5
        z := -SPAWN_DISTANCE }
    createdAt := now
    spawnTime := now }

/-- A draw of randomness for one spawned target: the two position draws
and the id token. -/
def ValidRand (r : ℚ) : Prop := 0 ≤ r ∧ r < 1

/-- Validity of one spawn draw `(r1, r2, id)`. -/
def ValidDraw (d : ℚ × ℚ × ℕ) : Prop := ValidRand d.1 ∧ ValidRand d.2.1

/-- Settings as clamped by the menu sliders (target count 1-10, target
size 0.2-1.5) together with the positive duration required of the
settings collaborator. -/
def ValidSettings (g : GameSettings) : Prop :=
  1 ≤ g.targetCount ∧ g.targetCount ≤ 10 ∧
    (0.2 : ℚ) ≤ g.targetSize ∧ g.targetSize ≤ 1.5 ∧ 0 < g.duration

/-! Hit resolution: the raycast loop of `handleShoot` (lines 463-484). -/

/-- One iteration of the `targets.forEach` loop in `handleShoot`: the
accumulator carries the current `(hitTarget, minDistance)` pair
(`none` plays the role of `minDistance = Infinity`).  The detection
sphere radius is `targetSize * 1.1` and the recorded distance is the
origin-to-center distance (squared here). -/
def resolveStep (ray : Ray) (targetSize : ℚ)
    (acc : Option (TargetData × ℚ)) (target : TargetData) :
    Option (TargetData × ℚ) :=
  if intersectsSphere ray target.position (targetSize * 1.1) then
    let d := sqDist target.position ray.origin
    match acc with
    | none => some (target, d)
    | some (u, m) => if d < m then some (target, d) else some (u, m)
  else acc

/-- The whole raycast loop: fold `resolveStep` over the live targets
starting from `minDistance = Infinity` (i.e. `none`).  Pure by
construction: it only reads the target list, as the source loop does. -/
def resolveHit (targets : List TargetData) (targetSize : ℚ) (ray : Ray) :
    Option (TargetData × ℚ) :=
  targets.foldl (resolveStep ray targetSize) none

/-! Scoring: the `setStats` updater of `handleShoot` (lines 486-515). -/

/-- The functional `setStats` update of `handleShoot`: `hit` is
`some (hitTarget, minDistanceSq)` on a hit, `none` on a miss;
`timeLeft` is the remaining session time captured by the closure and
`now` is `Date.now()` at the shot. -/
def updateStats (settings : GameSettings) (timeLeft now : ℚ)
    (hit : Option (TargetData × ℚ)) (prev : ScoreStats) : ScoreStats :=
  let newShots := prev.shotsFired + 1
  let newHits := if hit.isSome then prev.shotsHit + 1 else prev.shotsHit
  let newHistory :=
    match hit with
    | some (t, d) =>
        prev.hitHistory ++
          [{ time := settings.duration - timeLeft
             reactionTime := now - t.spawnTime
             distance := d }]
    | none => prev.hitHistory
  let newAvgReaction :=
    match hit with
    | some _ => (newHistory.map HitData.reactionTime).sum / (newHistory.length : ℚ)
    | none => prev.avgReactionTime
  { prev with
    shotsFired := newShots
    shotsHit := newHits
    accuracy := if 0 < newShots then ((newHits : ℚ) / (newShots : ℚ)) * 100 else 0
    score := prev.score + (if hit.isSome then 100 else 0)
    avgReactionTime := newAvgReaction
    hitHistory := newHistory }

/-- The `setTargets` updater of `handleShoot` (lines 518-522): drop
every target whose id equals the hit id, then push one fresh target. -/
def hitUpdate (hitId : ℕ) (r1 r2 : ℚ) (newId : ℕ) (now : ℚ)
    (prev : List TargetData) : List TargetData :=
  let remaining := prev.filter (fun t => t.id ≠ hitId)
  remaining ++ [generateTarget remaining r1 r2 newId now]

/-! The application state and its transitions (`App`, lines 387-524). -/

/-- The pieces of React state held by `App`. -/
structure AppState where
  gameState : GameState
  settings : GameSettings
  targets : List TargetData
  timeLeft : ℚ
  stats : ScoreStats
deriving DecidableEq

/-- The zeroed statistics used by the `useState` initializer and by
`startGame`. -/
def initialStats : ScoreStats :=
  { score := 0
    shotsFired := 0
    shotsHit := 0
    accuracy := 0
    avgReactionTime := 0
    hitHistory := [] }

/-- The state on first render: menu, default settings, no targets,
timer preloaded with the default duration. -/
def initialState : AppState :=
  { gameState := GameState.MENU
    settings := DEFAULT_SETTINGS
    targets := []
    timeLeft := DEFAULT_SETTINGS.duration
    stats := initialStats }

/-- `startGame` (lines 441-454): zero the stats, reload the timer, and
spawn one fresh target per draw (the caller supplies
`settings.targetCount` draws). -/
def startGame (draws : List (ℚ × ℚ × ℕ)) (now : ℚ) (s : AppState) : AppState :=
  { s with
    stats := initialStats
    timeLeft := s.settings.duration
    targets := draws.map (fun d => generateTarget [] d.1 d.2.1 d.2.2 now)
    gameState := GameState.PLAYING }

/-- The 1 Hz interval callback (lines 425-439).  The interval only
exists while `gameState == PLAYING`, so outside `PLAYING` a tick is a
no-op; inside, `timeLeft <= 1` clamps to `0` and fires the transition
to `FINISHED`. -/
def timerTick (s : AppState) : AppState :=
  if s.gameState = GameState.PLAYING then
    if s.timeLeft ≤ 1 then { s with gameState := GameState.FINISHED, timeLeft := 0 }
    else { s with timeLeft := s.timeLeft - 1 }
  else s

/-- The Escape/Space key handler (lines 406-422): toggles
`PLAYING ↔ PAUSED` and does nothing in the other states. -/
def pauseToggle (s : AppState) : AppState :=
  if s.gameState = GameState.PLAYING then { s with gameState := GameState.PAUSED }
  else if s.gameState = GameState.PAUSED then { s with gameState := GameState.PLAYING }
  else s

/-- `handleShoot` (lines 459-524): resolve the ray against the live
targets, apply the stats update, and on a hit replace the struck
target; `r1`, `r2`, `newId` are the randomness of the respawned
target. -/
def handleShoot (ray : Ray) (now : ℚ) (r1 r2 : ℚ) (newId : ℕ)
    (s : AppState) : AppState :=
  let hit := resolveHit s.targets s.settings.targetSize ray
  let stats' := updateStats s.settings s.timeLeft now hit s.stats
  match hit with
  | some (t, _) =>
      { s with stats := stats', targets := hitUpdate t.id r1 r2 newId now s.targets }
  | none => { s with stats := stats' }

/-- States reachable through the UI: initial render, then the events
the interface can deliver (start/restart from any non-playing screen,
the pause key, clock ticks, shots while playing, quitting to the menu
from the pause or report screens, and settings edits in the menu). -/
inductive Reachable : AppState → Prop where
  | init : Reachable initialState
  | start (s : AppState) (draws : List (ℚ × ℚ × ℕ)) (now : ℚ) :
      Reachable s → s.gameState ≠ GameState.PLAYING →
      draws.length = s.settings.targetCount →
      (∀ d ∈ draws, ValidDraw d) →
      Reachable (startGame draws now s)
  | pause (s : AppState) : Reachable s → Reachable (pauseToggle s)
  | tick (s : AppState) : Reachable s → Reachable (timerTick s)
  | shoot (s : AppState) (ray : Ray) (now r1 r2 : ℚ) (newId : ℕ) :
      Reachable s → s.gameState = GameState.PLAYING →
      ValidRand r1 → ValidRand r2 →
      Reachable (handleShoot ray now r1 r2 newId s)
  | toMenu (s : AppState) : Reachable s → s.gameState ≠ GameState.PLAYING →
      Reachable { s with gameState := GameState.MENU }
  | changeSettings (s : AppState) (g : GameSettings) :
      Reachable s → s.gameState = GameState.MENU → ValidSettings g →
      Reachable { s with settings := g }

/-! Grading (the `Scoreboard` component, lines 146-155). -/

/-- Session grades. -/
inductive Grade where
  | S
  | A
  | B
  | C
  | D
deriving DecidableEq

/-- The grading chain of `Scoreboard`: first matching rule wins,
default `D`. -/
def grade (accuracy avgReaction : ℚ) : Grade :=
  if accuracy > 90 ∧ avgReaction < 350 then Grade.S
  else if accuracy > 85 ∧ avgReaction < 450 then Grade.A
  else if accuracy > 75 ∧ avgReaction < 550 then Grade.B
  else if accuracy > 60 then Grade.C
  else Grade.D

/-! Shot sequences, for statements about whole sessions. -/

/-- The data of one shot event as seen by the `setStats` updater. -/
structure ShotEvent where
  now : ℚ
  timeLeft : ℚ
  hit : Option (TargetData × ℚ)
deriving DecidableEq

/-- Apply a sequence of shots to a statistics record. -/
def runShots (settings : GameSettings) (events : List ShotEvent)
    (s0 : ScoreStats) : ScoreStats :=
  events.foldl (fun st e => updateStats settings e.timeLeft e.now e.hit st) s0

/-- The spawn box asserted by claim C10: `x ∈ [-5, 5]`, `y ∈ [1.2, 3.7]`,
`z = -12`. -/
def InSpawnBox (p : Vec3) : Prop :=
  -5 ≤ p.x ∧ p.x ≤ 5 ∧ (1.2 : ℚ) ≤ p.y ∧ p.y ≤ (3.7 : ℚ) ∧ p.z = -12

/-- Specification of the accumulator of the raycast loop after the
targets in `seen` have been visited: `none` means no sphere was
intersected so far; `some (t, d)` means `t` is an intersected target of
`seen` at squared center distance `d`, minimal among the intersected
targets seen so far. -/
def GoodAcc (ray : Ray) (size : ℚ) (seen : List TargetData) :
    Option (TargetData × ℚ) → Prop
  | none => ∀ u ∈ seen, ¬ intersectsSphere ray u.position (size * 1.1)
  | some (t, d) =>
      t ∈ seen ∧ intersectsSphere ray t.position (size * 1.1) ∧
        d = sqDist t.position ray.origin ∧
        ∀ u ∈ seen, intersectsSphere ray u.position (size * 1.1) →
          d ≤ sqDist u.position ray.origin

/-! Concrete scenario data used by the theorems below. -/

/-- A target dead ahead of `ray0`, spawned at time 0. -/
def t0 : TargetData := { id := 0, position := ⟨0, 1.2, -12⟩, createdAt := 0, spawnTime := 0 }

/-- A ray from eye level straight down the range. -/
def ray0 : Ray := { origin := ⟨0, 1.2, 0⟩, direction := ⟨0, 0, -1⟩ }

/-- Three spawn draws whose random id tokens collide: the first two
targets receive the same id. -/
def c1Draws : List (ℚ × ℚ × ℕ) := [(0.5, 0, 0), (0.5, 0, 0), (0.5, 0, 1)]

/-- Start a default session with the colliding draws, then fire one
shot that strikes the duplicated id. -/
def c1State : AppState := handleShoot ray0 0 0.5 0 99 (startGame c1Draws 0 initialState)

/-- A playing state with a 5-second session, as in the countdown
scenario. -/
def c8Start : AppState :=
  { gameState := GameState.PLAYING
    settings := { DEFAULT_SETTINGS with duration := 5 }
    targets := []
    timeLeft := 5
    stats := initialStats }

/-- A hit event on `t0` (spawned at 0) at time `r`, so with reaction
time `r`. -/
def mkHit (r : ℚ) : ShotEvent := { now := r, timeLeft := 60, hit := some (t0, 0) }

/-- A miss event. -/
def mkMiss : ShotEvent := { now := 0, timeLeft := 60, hit := none }

/-- Ten shots, seven of them hits with the reaction times of the spec
scenario. -/
def c6Events : List ShotEvent :=
  [mkHit 200, mkHit 250, mkHit 300, mkHit 150, mkHit 400, mkHit 350, mkHit 280,
    mkMiss, mkMiss, mkMiss]

/-- A playing state paused at `timeLeft = 42`. -/
def c9S : AppState :=
  { gameState := GameState.PLAYING
    settings := DEFAULT_SETTINGS
    targets := []
    timeLeft := 42
    stats := initialStats }

/-- The average-reaction-time invariant: whenever the hit history is
nonempty, the stored average is the arithmetic mean of the recorded
reaction times. -/
def StatsInv (st : ScoreStats) : Prop :=
  st.hitHistory ≠ [] →
    st.avgReactionTime =
      (st.hitHistory.map HitData.reactionTime).sum / (st.hitHistory.length : ℚ)

/-! ## Helper lemmas -/

theorem timerTick_targets (s : AppState) : (timerTick s).targets = s.targets := by
  unfold timerTick; split_ifs <;> rfl

theorem pauseToggle_targets (s : AppState) : (pauseToggle s).targets = s.targets := by
  unfold pauseToggle; split_ifs <;> rfl

theorem goodAcc_step (ray : Ray) (size : ℚ) (seen : List TargetData)
    (acc : Option (TargetData × ℚ)) (a : TargetData) (h : GoodAcc ray size seen acc) :
    GoodAcc ray size (seen ++ [a]) (resolveStep ray size acc a) := by
  unfold resolveStep
  by_cases hi : intersectsSphere ray a.position (size * 1.1)
  · rw [if_pos hi]
    cases acc with
    | none =>
        refine ⟨by simp, hi, rfl, ?_⟩
        intro u hu hint
        rcases List.mem_append.1 hu with h1 | h1
        · exact absurd hint (h u h1)
        · cases List.mem_singleton.1 h1; exact le_refl _
    | some p =>
        obtain ⟨u0, m⟩ := p
        obtain ⟨hmem, hint0, hd0, hmin⟩ := h
        show GoodAcc ray size (seen ++ [a])
          (if sqDist a.position ray.origin < m then
            some (a, sqDist a.position ray.origin) else some (u0, m))
        by_cases hlt : sqDist a.position ray.origin < m
        · rw [if_pos hlt]
          refine ⟨by simp, hi, rfl, ?_⟩
          intro u hu hint
          rcases List.mem_append.1 hu with h1 | h1
          · exact le_of_lt (lt_of_lt_of_le hlt (hmin u h1 hint))
          · cases List.mem_singleton.1 h1; exact le_refl _
        · rw [if_neg hlt]
          refine ⟨List.mem_append_left _ hmem, hint0, hd0, ?_⟩
          intro u hu hint
          rcases List.mem_append.1 hu with h1 | h1
          · exact hmin u h1 hint
          · cases List.mem_singleton.1 h1; exact le_of_not_lt hlt
  · rw [if_neg hi]
    cases acc with
    | none =>
        intro u hu hint
        rcases List.mem_append.1 hu with h1 | h1
        · exact h u h1 hint
        · cases List.mem_singleton.1 h1; exact hi hint
    | some p =>
        obtain ⟨u0, m⟩ := p
        obtain ⟨hmem, hint0, hd0, hmin⟩ := h
        refine ⟨List.mem_append_left _ hmem, hint0, hd0, ?_⟩
        intro u hu hint
        rcases List.mem_append.1 hu with h1 | h1
        · exact hmin u h1 hint
        · cases List.mem_singleton.1 h1; exact absurd hint hi

theorem resolveHit_aux (ray : Ray) (size : ℚ) :
    ∀ (l seen : List TargetData) (acc : Option (TargetData × ℚ)),
      GoodAcc ray size seen acc →
      GoodAcc ray size (seen ++ l) (l.foldl (resolveStep ray size) acc) := by
  intro l
  induction l with
  | nil => intro seen acc h; simpa using h
  | cons a l ih =>
      intro seen acc h
      have h2 := ih (seen ++ [a]) (resolveStep ray size acc a) (goodAcc_step ray size seen acc a h)
      simpa [List.append_assoc] using h2

theorem resolveHit_good (ts : List TargetData) (size : ℚ) (ray : Ray) :
    GoodAcc ray size ts (resolveHit ts size ray) := by
  have h0 : GoodAcc ray size [] (none : Option (TargetData × ℚ)) := by
    intro u hu
    exact absurd hu (List.not_mem_nil u)
  simpa using resolveHit_aux ray size ts [] none h0

theorem resolveHit_mem {ts : List TargetData} {size : ℚ} {ray : Ray} {t : TargetData}
    {d : ℚ} (h : resolveHit ts size ray = some (t, d)) : t ∈ ts := by
  have g := resolveHit_good ts size ray
  rw [h] at g
  exact g.1

theorem filter_ne_id_length :
    ∀ (l : List TargetData) (i : ℕ), (l.map TargetData.id).Nodup →
      ∀ t ∈ l, t.id = i → (l.filter (fun u => u.id ≠ i)).length + 1 = l.length := by
  intro l
  induction l with
  | nil => intro i _ t ht; exact absurd ht (List.not_mem_nil t)
  | cons a l ih =>
      intro i hn t ht hti
      rw [List.map_cons, List.nodup_cons] at hn
      obtain ⟨ha, hn'⟩ := hn
      by_cases hai : a.id = i
      · have hfl : l.filter (fun u => u.id ≠ i) = l := by
          rw [List.filter_eq_self]
          intro u hu
          simp only [ne_eq, decide_eq_true_eq]
          intro hui
          exact ha (by rw [hai, ← hui]; exact List.mem_map_of_mem TargetData.id hu)
        rw [List.filter_cons_of_neg (by simp [hai]), hfl, List.length_cons]
      · have ht' : t ∈ l := by
          rcases List.mem_cons.1 ht with h1 | h1
          · exact absurd (h1 ▸ hti) hai
          · exact h1
        have hrec := ih i hn' t ht' hti
        rw [List.filter_cons_of_pos (by simp [hai]), List.length_cons, List.length_cons]
        omega

theorem hitUpdate_length (prev : List TargetData) (t : TargetData) (r1 r2 : ℚ)
    (newId : ℕ) (now : ℚ) (hn : (prev.map TargetData.id).Nodup) (ht : t ∈ prev) :
    (hitUpdate t.id r1 r2 newId now prev).length = prev.length := by
  have h := filter_ne_id_length prev t.id hn t ht rfl
  simp only [hitUpdate, List.length_append, List.length_singleton]
  omega

theorem generateTarget_box (l : List TargetData) (r1 r2 : ℚ) (i : ℕ) (now : ℚ)
    (h1 : ValidRand r1) (h2 : ValidRand r2) :
    InSpawnBox (generateTarget l r1 r2 i now).position := by
  obtain ⟨h1a, h1b⟩ := h1
  obtain ⟨h2a, h2b⟩ := h2
  simp only [InSpawnBox, generateTarget, SPAWN_AREA_WIDTH, SPAWN_DISTANCE]
  refine ⟨by nlinarith, by nlinarith, by nlinarith, by nlinarith, by norm_num⟩

theorem reachable_targets_box (s : AppState) (h : Reachable s) :
    ∀ t ∈ s.targets, InSpawnBox t.position := by
  induction h with
  | init => intro t ht; exact absurd ht (List.not_mem_nil t)
  | start s draws now hs hng hlen hvalid ih =>
      intro t ht
      simp only [startGame, List.mem_map] at ht
      obtain ⟨d, hd, rfl⟩ := ht
      exact generateTarget_box [] d.1 d.2.1 d.2.2 now (hvalid d hd).1 (hvalid d hd).2
  | pause s hs ih =>
      intro t ht
      rw [pauseToggle_targets] at ht
      exact ih t ht
  | tick s hs ih =>
      intro t ht
      rw [timerTick_targets] at ht
      exact ih t ht
  | shoot s ray now r1 r2 newId hs hg hr1 hr2 ih =>
      intro t ht
      unfold handleShoot at ht
      cases hr : resolveHit s.targets s.settings.targetSize ray with
      | none => rw [hr] at ht; exact ih t ht
      | some p =>
          obtain ⟨u, m⟩ := p
          rw [hr] at ht
          simp only [hitUpdate, List.mem_append, List.mem_singleton] at ht
          rcases ht with h1 | h1
          · exact ih t (List.mem_of_mem_filter h1)
          · rw [h1]; exact generateTarget_box _ r1 r2 newId now hr1 hr2
  | toMenu s hs hng ih =>
      intro t ht
      exact ih t ht
  | changeSettings s g hs hmenu hvalid ih =>
      intro t ht
      exact ih t ht

theorem updateStats_inv (settings : GameSettings) (tl now : ℚ)
    (hit : Option (TargetData × ℚ)) (prev : ScoreStats) (h : StatsInv prev) :
    StatsInv (updateStats settings tl now hit prev) := by
  cases hit with
  | none => exact h
  | some p =>
      obtain ⟨t, d⟩ := p
      intro _
      rfl

theorem runShots_inv (settings : GameSettings) :
    ∀ (events : List ShotEvent) (st : ScoreStats), StatsInv st →
      StatsInv (runShots settings events st) := by
  intro events
  induction events with
  | nil => intro st h; exact h
  | cons e es ih =>
      intro st h
      exact ih (updateStats settings e.timeLeft e.now e.hit st)
        (updateStats_inv settings e.timeLeft e.now e.hit st h)

theorem runShots_reactions (settings : GameSettings) :
    ∀ (events : List ShotEvent) (st : ScoreStats),
      (runShots settings events st).hitHistory.map HitData.reactionTime =
        st.hitHistory.map HitData.reactionTime ++
          events.filterMap (fun e => e.hit.map (fun h => e.now - h.1.spawnTime)) := by
  intro events
  induction events with
  | nil => intro st; simp [runShots]
  | cons e es ih =>
      intro st
      have h1 : runShots settings (e :: es) st =
          runShots settings es (updateStats settings e.timeLeft e.now e.hit st) := rfl
      rw [h1, ih]
      cases hh : e.hit with
      | none => simp [updateStats, hh]
      | some p =>
          obtain ⟨t, d⟩ := p
          simp [updateStats, hh]

/-! ## Claim theorems -/

/-- C1, counterexample: the live-target count invariant fails on a
reachable `PLAYING` state.  The random ids of `generateTarget` can
collide; after `startGame` spawns two targets with the same id, one hit
on that id removes both (the respawn update filters by id) and adds a
single replacement, leaving 2 live targets although
`settings.targetCount = 3`. -/
theorem duplicate_id_breaks_target_count :
    Reachable c1State ∧ c1State.gameState = GameState.PLAYING ∧
      c1State.targets.length ≠ c1State.settings.targetCount := by
  refine ⟨?_, ?_, ?_⟩
  · refine Reachable.shoot (startGame c1Draws 0 initialState) ray0 0 0.5 0 99
      (Reachable.start initialState c1Draws 0 Reachable.init ?_ ?_ ?_) rfl ?_ ?_
    · simp [initialState]
    · simp [c1Draws, initialState, DEFAULT_SETTINGS]
    · intro d hd
      simp only [c1Draws, List.mem_cons, List.not_mem_nil, or_false] at hd
      rcases hd with rfl | rfl | rfl <;>
        exact ⟨by norm_num [ValidRand], by norm_num [ValidRand]⟩
    · exact ⟨by norm_num, by norm_num⟩
    · exact ⟨by norm_num, by norm_num⟩
  · norm_num [c1State, handleShoot, startGame, c1Draws, generateTarget, resolveHit,
      resolveStep, intersectsSphere, distanceSqToPoint, vdot, vsub, vaddScaled, sqDist,
      hitUpdate, initialState, DEFAULT_SETTINGS, TARGET_RADIUS, SPAWN_AREA_WIDTH,
      SPAWN_DISTANCE, ray0, List.filter]
  · norm_num [c1State, handleShoot, startGame, c1Draws, generateTarget, resolveHit,
      resolveStep, intersectsSphere, distanceSqToPoint, vdot, vsub, vaddScaled, sqDist,
      hitUpdate, initialState, DEFAULT_SETTINGS, TARGET_RADIUS, SPAWN_AREA_WIDTH,
      SPAWN_DISTANCE, ray0, List.filter]

/-- C1, amended: `startGame` creates exactly `settings.targetCount`
targets and enters `PLAYING`; a shot on a state whose live targets have
pairwise-distinct ids preserves the live-target count (the removal by
id then removes exactly one target and exactly one replacement is
pushed); clock ticks and pause toggles never touch the target list.
(Without the distinct-id proviso the invariant fails, see the
counterexample.) -/
theorem live_target_count_preserved :
    (∀ (s : AppState) (draws : List (ℚ × ℚ × ℕ)) (now : ℚ),
        draws.length = s.settings.targetCount →
        (startGame draws now s).gameState = GameState.PLAYING ∧
          (startGame draws now s).targets.length =
            (startGame draws now s).settings.targetCount) ∧
    (∀ (s : AppState) (ray : Ray) (now r1 r2 : ℚ) (newId : ℕ),
        (s.targets.map TargetData.id).Nodup →
        (handleShoot ray now r1 r2 newId s).targets.length = s.targets.length) ∧
    (∀ s : AppState,
        (timerTick s).targets = s.targets ∧ (pauseToggle s).targets = s.targets) := by
  refine ⟨?_, ?_, fun s => ⟨timerTick_targets s, pauseToggle_targets s⟩⟩
  · intro s draws now hlen
    exact ⟨rfl, by simp [startGame, hlen]⟩
  · intro s ray now r1 r2 newId hn
    unfold handleShoot
    cases hr : resolveHit s.targets s.settings.targetSize ray with
    | none => rfl
    | some p =>
        obtain ⟨t, d⟩ := p
        exact hitUpdate_length s.targets t r1 r2 newId now hn (resolveHit_mem hr)

/-- C1, amended, witness: instantiated at the default settings with
three distinct-id draws and a missing shot. -/
theorem live_target_count_preserved_inst :
    (startGame [(0.5, 0.5, 0), (0.5, 0.5, 1), (0.5, 0.5, 2)] 0 initialState).gameState
        = GameState.PLAYING ∧
      (startGame [(0.5, 0.5, 0), (0.5, 0.5, 1), (0.5, 0.5, 2)] 0 initialState).targets.length
        = (startGame [(0.5, 0.5, 0), (0.5, 0.5, 1), (0.5, 0.5, 2)] 0 initialState).settings.targetCount ∧
      (handleShoot ray0 0 0.5 0.5 3
          (startGame [(0.5, 0.5, 0), (0.5, 0.5, 1), (0.5, 0.5, 2)] 0 initialState)).targets.length
        = (startGame [(0.5, 0.5, 0), (0.5, 0.5, 1), (0.5, 0.5, 2)] 0 initialState).targets.length := by
  have h1 := live_target_count_preserved.1 (initialState) [(0.5, 0.5, 0), (0.5, 0.5, 1), (0.5, 0.5, 2)] 0
    (by simp [initialState, DEFAULT_SETTINGS])
  have h2 := live_target_count_preserved.2.1
    (startGame [(0.5, 0.5, 0), (0.5, 0.5, 1), (0.5, 0.5, 2)] 0 initialState) ray0 0 0.5 0.5 3
    (by simp [startGame, generateTarget])
  exact ⟨h1.1, h1.2, h2⟩

/-- C2: the claim demands that the hit-removal-and-respawn update on an
id absent from the list leave the list unchanged (the spec requires a
silent no-op); the code instead removes nothing and still pushes one
fresh target, so the list grows by one — a state-corrupting slip in
exactly the stale-id case the spec calls out.  The last conjunct
evaluates the update at the failing input: the empty list and id 1. -/
theorem stale_hit_update_appends :
    (∀ (prev : List TargetData) (hitId : ℕ) (r1 r2 : ℚ) (newId : ℕ) (now : ℚ),
        hitId ∉ prev.map TargetData.id →
        (hitUpdate hitId r1 r2 newId now prev).length = prev.length + 1 ∧
          hitUpdate hitId r1 r2 newId now prev ≠ prev) ∧
      (hitUpdate 1 0 0 7 0 []).length = 1 := by
  constructor
  · intro prev hitId r1 r2 newId now h
    have hfl : prev.filter (fun t => t.id ≠ hitId) = prev := by
      rw [List.filter_eq_self]
      intro u hu
      simp only [ne_eq, decide_eq_true_eq]
      intro hui
      exact h (hui ▸ List.mem_map_of_mem TargetData.id hu)
    have hlen : (hitUpdate hitId r1 r2 newId now prev).length = prev.length + 1 := by
      simp only [hitUpdate, hfl, List.length_append, List.length_singleton]
    refine ⟨hlen, fun heq => ?_⟩
    have h2 := congrArg List.length heq
    rw [hlen] at h2
    omega
  · simp [hitUpdate]

/-- C2, witness: the general part applied at the failing input (empty
list, stale id 1). -/
theorem stale_hit_update_appends_inst :
    (hitUpdate 1 0 0 7 0 []).length = ([] : List TargetData).length + 1 ∧
      hitUpdate 1 0 0 7 0 [] ≠ [] :=
  stale_hit_update_appends.1 [] 1 0 0 7 0 (by simp)

/-- C3: the resolver tests the ray against a sphere of radius
`targetSize * 1.1` centered at each target's position; it returns
`none` exactly when no sphere is intersected, and otherwise an
intersected target of the list whose squared origin-to-center distance
`d = sqDist t.position ray.origin` (the straight-line origin-to-center
distance, not the intersection-point distance) is minimal among all
intersected targets.  The resolver is a pure function of the ray, the
target list, and the size — by construction it mutates nothing, like
the read-only `forEach` loop it embeds. -/
theorem hit_resolution_spec :
    ∀ (ts : List TargetData) (size : ℚ) (ray : Ray),
      (resolveHit ts size ray = none ↔
        ∀ t ∈ ts, ¬ intersectsSphere ray t.position (size * 1.1)) ∧
      (∀ (t : TargetData) (d : ℚ), resolveHit ts size ray = some (t, d) →
        t ∈ ts ∧ intersectsSphere ray t.position (size * 1.1) ∧
          d = sqDist t.position ray.origin ∧
          ∀ u ∈ ts, intersectsSphere ray u.position (size * 1.1) →
            d ≤ sqDist u.position ray.origin) := by
  intro ts size ray
  have g := resolveHit_good ts size ray
  constructor
  · constructor
    · intro h
      rw [h] at g
      exact g
    · intro h
      cases hr : resolveHit ts size ray with
      | none => rfl
      | some p =>
          obtain ⟨t, d⟩ := p
          rw [hr] at g
          exact absurd g.2.1 (h t g.1)
  · intro t d h
    rw [h] at g
    exact g

/-- C3, witness: a single target dead ahead is resolved with the exact
squared origin-to-center distance 144. -/
theorem hit_resolution_spec_inst :
    t0 ∈ [t0] ∧ intersectsSphere ray0 t0.position ((0.5 : ℚ) * 1.1) ∧
      (144 : ℚ) = sqDist t0.position ray0.origin ∧
      ∀ u ∈ [t0], intersectsSphere ray0 u.position ((0.5 : ℚ) * 1.1) →
        (144 : ℚ) ≤ sqDist u.position ray0.origin :=
  (hit_resolution_spec [t0] 0.5 ray0).2 t0 144
    (by norm_num [resolveHit, resolveStep, intersectsSphere, distanceSqToPoint, vdot,
      vsub, vaddScaled, sqDist, t0, ray0])

/-- C4: every shot increments `shotsFired` by exactly 1; a miss leaves
`shotsHit`, `score` and `hitHistory` unchanged; a hit increments
`shotsHit`, adds exactly 100 to `score` (independent of distance and
speed), and appends at the end of `hitHistory` the record whose `time`
is the elapsed session time `settings.duration - timeLeft`, whose
`reactionTime` is `now` minus the hit target's `spawnTime`, and whose
`distance` is the resolved distance. -/
theorem shot_stats_update_spec :
    ∀ (settings : GameSettings) (timeLeft now : ℚ) (prev : ScoreStats),
      ((updateStats settings timeLeft now none prev).shotsFired = prev.shotsFired + 1 ∧
        (updateStats settings timeLeft now none prev).shotsHit = prev.shotsHit ∧
        (updateStats settings timeLeft now none prev).score = prev.score ∧
        (updateStats settings timeLeft now none prev).hitHistory = prev.hitHistory) ∧
      (∀ (t : TargetData) (d : ℚ),
        (updateStats settings timeLeft now (some (t, d)) prev).shotsFired
            = prev.shotsFired + 1 ∧
          (updateStats settings timeLeft now (some (t, d)) prev).shotsHit
            = prev.shotsHit + 1 ∧
          (updateStats settings timeLeft now (some (t, d)) prev).score
            = prev.score + 100 ∧
          (updateStats settings timeLeft now (some (t, d)) prev).hitHistory
            = prev.hitHistory ++
                [{ time := settings.duration - timeLeft
                   reactionTime := now - t.spawnTime
                   distance := d }]) := by
  intro settings timeLeft now prev
  exact ⟨⟨rfl, rfl, rfl, rfl⟩, fun t d => ⟨rfl, rfl, rfl, rfl⟩⟩

/-- C5: after every shot the stored accuracy equals
`shotsHit / shotsFired * 100` and `shotsFired` is positive, so the
`shotsFired == 0` guard can only apply to the freshly reset statistics,
where the stored accuracy is the defined default 0 rather than NaN. -/
theorem accuracy_formula_spec :
    (∀ (settings : GameSettings) (timeLeft now : ℚ) (hit : Option (TargetData × ℚ))
        (prev : ScoreStats),
        0 < (updateStats settings timeLeft now hit prev).shotsFired ∧
          (updateStats settings timeLeft now hit prev).accuracy =
            ((updateStats settings timeLeft now hit prev).shotsHit : ℚ) /
                ((updateStats settings timeLeft now hit prev).shotsFired : ℚ) * 100) ∧
      initialStats.shotsFired = 0 ∧ initialStats.accuracy = 0 := by
  refine ⟨?_, rfl, rfl⟩
  intro settings timeLeft now hit prev
  constructor
  · exact Nat.succ_pos prev.shotsFired
  · simp [updateStats]

/-- C6: the stored average reaction time is always the exact arithmetic
mean of the reaction times in `hitHistory` (recomputed in full on every
hit, preserved by misses), and `hitHistory` records precisely the
reaction time `now - spawnTime` of each hit of the session, in order.
The scenario: 10 shots, 7 hits with reaction times
[200, 250, 300, 150, 400, 350, 280] give `shotsFired = 10`,
`shotsHit = 7`, `accuracy = 70`, and `avgReactionTime = 1930/7`, which
rounds to 275.71. -/
theorem avg_reaction_mean_spec :
    (∀ (settings : GameSettings) (events : List ShotEvent),
        (runShots settings events initialStats).hitHistory.map HitData.reactionTime =
            events.filterMap (fun e => e.hit.map (fun h => e.now - h.1.spawnTime)) ∧
          ((runShots settings events initialStats).hitHistory ≠ [] →
            (runShots settings events initialStats).avgReactionTime =
              ((runShots settings events initialStats).hitHistory.map
                  HitData.reactionTime).sum /
                ((runShots settings events initialStats).hitHistory.length : ℚ))) ∧
      (runShots DEFAULT_SETTINGS c6Events initialStats).shotsFired = 10 ∧
      (runShots DEFAULT_SETTINGS c6Events initialStats).shotsHit = 7 ∧
      (runShots DEFAULT_SETTINGS c6Events initialStats).accuracy = 70 ∧
      (runShots DEFAULT_SETTINGS c6Events initialStats).avgReactionTime = 1930 / 7 ∧
      (275.71 : ℚ) ≤ (runShots DEFAULT_SETTINGS c6Events initialStats).avgReactionTime ∧
      (runShots DEFAULT_SETTINGS c6Events initialStats).avgReactionTime < 275.72 := by
  refine ⟨?_, ?_⟩
  · intro settings events
    refine ⟨?_, runShots_inv settings events initialStats ?_⟩
    · have h := runShots_reactions settings events initialStats
      simpa [initialStats] using h
    · intro hne
      exact absurd rfl hne
  · norm_num [runShots, c6Events, mkHit, mkMiss, updateStats, initialStats, t0,
      DEFAULT_SETTINGS, List.foldl]

/-- C6, witness: the mean property applied to the concrete scenario
events, whose history is nonempty. -/
theorem avg_reaction_mean_inst :
    (runShots DEFAULT_SETTINGS c6Events initialStats).avgReactionTime =
      ((runShots DEFAULT_SETTINGS c6Events initialStats).hitHistory.map
          HitData.reactionTime).sum /
        ((runShots DEFAULT_SETTINGS c6Events initialStats).hitHistory.length : ℚ) :=
  (avg_reaction_mean_spec.1 DEFAULT_SETTINGS c6Events).2
    (by
      norm_num [runShots, c6Events, mkHit, mkMiss, updateStats, initialStats, t0,
        DEFAULT_SETTINGS, List.foldl]
      exact List.cons_ne_nil _ _)

/-- C7: the grade rules are evaluated in strict priority order with the
first matching rule winning: S needs accuracy above 90 and average
reaction below 350; A needs the S rule to have failed plus accuracy
above 85 and reaction below 450; B likewise with 75 and 550; C needs
the previous rules to have failed plus accuracy above 60; D is the
default.  In particular (92, 300) grades S and (92, 400) grades A. -/
theorem grade_priority_spec :
    ∀ (a t : ℚ),
      (grade a t = Grade.S ↔ 90 < a ∧ t < 350) ∧
        (grade a t = Grade.A ↔ ¬(90 < a ∧ t < 350) ∧ 85 < a ∧ t < 450) ∧
        (grade a t = Grade.B ↔
          ¬(90 < a ∧ t < 350) ∧ ¬(85 < a ∧ t < 450) ∧ 75 < a ∧ t < 550) ∧
        (grade a t = Grade.C ↔
          ¬(90 < a ∧ t < 350) ∧ ¬(85 < a ∧ t < 450) ∧ ¬(75 < a ∧ t < 550) ∧ 60 < a) ∧
        (grade a t = Grade.D ↔
          ¬(90 < a ∧ t < 350) ∧ ¬(85 < a ∧ t < 450) ∧ ¬(75 < a ∧ t < 550) ∧ ¬(60 < a)) ∧
        grade 92 300 = Grade.S ∧ grade 92 400 = Grade.A := by
  intro a t
  refine ⟨?_, ?_, ?_, ?_, ?_, by norm_num [grade], by norm_num [grade]⟩ <;>
    · unfold grade
      split_ifs <;> simp_all

/-- C8: while `PLAYING`, a one-second tick with `timeLeft ≥ 1`
decreases `timeLeft` by exactly 1, never below 0, and moves to
`FINISHED` exactly when the pre-tick `timeLeft` was at most 1 (the
clamp to 0 and the transition fire together); outside `PLAYING` a tick
is a no-op (the interval is cleared, so once `FINISHED` is reached no
further tick changes anything and the transition cannot fire twice).
Scenario: `duration = 5` and five ticks without pausing end in
`FINISHED` with `timeLeft = 0`, the fourth tick still leaving
`PLAYING`. -/
theorem countdown_tick_spec :
    (∀ s : AppState, s.gameState = GameState.PLAYING → 1 ≤ s.timeLeft →
        (timerTick s).timeLeft = s.timeLeft - 1 ∧ 0 ≤ (timerTick s).timeLeft ∧
          ((timerTick s).gameState = GameState.FINISHED ↔ s.timeLeft ≤ 1) ∧
          ((timerTick s).gameState = GameState.PLAYING ↔ 1 < s.timeLeft)) ∧
      (∀ s : AppState, s.gameState ≠ GameState.PLAYING → timerTick s = s) ∧
      (timerTick (timerTick (timerTick (timerTick (timerTick c8Start))))).gameState
          = GameState.FINISHED ∧
      (timerTick (timerTick (timerTick (timerTick (timerTick c8Start))))).timeLeft = 0 ∧
      (timerTick (timerTick (timerTick (timerTick c8Start)))).gameState
          = GameState.PLAYING ∧
      (timerTick (timerTick (timerTick (timerTick c8Start)))).timeLeft = 1 := by
  refine ⟨?_, ?_, ?_⟩
  · intro s hg ht
    unfold timerTick
    rw [if_pos hg]
    by_cases hle : s.timeLeft ≤ 1
    · rw [if_pos hle]
      have heq : s.timeLeft = 1 := le_antisymm hle ht
      refine ⟨by rw [heq]; norm_num, le_refl 0, ?_, ?_⟩
      · simp [hle]
      · simp [heq]
    · rw [if_neg hle]
      push_neg at hle
      refine ⟨rfl, ?_, ?_, ?_⟩
      · change (0 : ℚ) ≤ s.timeLeft - 1
        linarith
      · simp only [hg]
        constructor
        · intro h
          exact absurd h (by simp)
        · intro h
          exact absurd hle (not_lt.mpr h)
      · simp [hg, hle]
  · intro s hg
    unfold timerTick
    rw [if_neg hg]
  · norm_num [timerTick, c8Start, DEFAULT_SETTINGS]

/-- C8, witness: the per-tick law applied to the concrete playing state
with `timeLeft = 5`. -/
theorem countdown_tick_inst :
    (timerTick c8Start).timeLeft = c8Start.timeLeft - 1 ∧
      0 ≤ (timerTick c8Start).timeLeft ∧
      ((timerTick c8Start).gameState = GameState.FINISHED ↔ c8Start.timeLeft ≤ 1) ∧
      ((timerTick c8Start).gameState = GameState.PLAYING ↔ 1 < c8Start.timeLeft) :=
  countdown_tick_spec.1 c8Start rfl (by norm_num [c8Start])

/-- C9: pausing from `PLAYING` changes only the game state; no clock
tick has any effect while `PAUSED` (any number of ticks leaves the
paused state fixed), and toggling back to `PLAYING` restores a state
whose stats, target list, and remaining time are exactly those at the
moment of pausing. -/
theorem pause_preserves_session :
    ∀ (s : AppState) (n : ℕ), s.gameState = GameState.PLAYING →
      (pauseToggle s).gameState = GameState.PAUSED ∧
        (pauseToggle s).stats = s.stats ∧
        (pauseToggle s).targets = s.targets ∧
        (pauseToggle s).timeLeft = s.timeLeft ∧
        timerTick^[n] (pauseToggle s) = pauseToggle s ∧
        (pauseToggle (timerTick^[n] (pauseToggle s))).gameState = GameState.PLAYING ∧
        (pauseToggle (timerTick^[n] (pauseToggle s))).stats = s.stats ∧
        (pauseToggle (timerTick^[n] (pauseToggle s))).targets = s.targets ∧
        (pauseToggle (timerTick^[n] (pauseToggle s))).timeLeft = s.timeLeft := by
  intro s n h
  have hp : pauseToggle s = { s with gameState := GameState.PAUSED } := by
    unfold pauseToggle
    rw [if_pos h]
  have hfix : timerTick (pauseToggle s) = pauseToggle s := by
    rw [hp]
    unfold timerTick
    simp
  have hiter : timerTick^[n] (pauseToggle s) = pauseToggle s :=
    Function.iterate_fixed hfix n
  have hres : pauseToggle { s with gameState := GameState.PAUSED } =
      { s with gameState := GameState.PLAYING } := by
    unfold pauseToggle
    simp
  rw [hiter, hp, hres]
  exact ⟨rfl, rfl, rfl, rfl, rfl, rfl, rfl, rfl, rfl⟩

/-- C9, witness: pausing the concrete playing state at `timeLeft = 42`,
letting ten seconds of wall clock pass, and resuming yields
`timeLeft = 42` again with stats and targets untouched. -/
theorem pause_preserves_session_inst :
    (pauseToggle c9S).gameState = GameState.PAUSED ∧
      (pauseToggle c9S).stats = c9S.stats ∧
      (pauseToggle c9S).targets = c9S.targets ∧
      (pauseToggle c9S).timeLeft = 42 ∧
      timerTick^[10] (pauseToggle c9S) = pauseToggle c9S ∧
      (pauseToggle (timerTick^[10] (pauseToggle c9S))).gameState = GameState.PLAYING ∧
      (pauseToggle (timerTick^[10] (pauseToggle c9S))).stats = c9S.stats ∧
      (pauseToggle (timerTick^[10] (pauseToggle c9S))).targets = c9S.targets ∧
      (pauseToggle (timerTick^[10] (pauseToggle c9S))).timeLeft = 42 :=
  pause_preserves_session c9S 10 rfl

/-- C10: every target produced by `generateTarget`, for every admissible
outcome of the two random draws, lies in the fixed box
`x ∈ [-SPAWN_AREA_WIDTH/2, SPAWN_AREA_WIDTH/2] = [-5, 5]`,
`y ∈ [1.2, 3.7]` (a band 2.5 units tall produced by the literals
`1.2 + random() * 2.5`, independent of `SPAWN_AREA_HEIGHT = 6`), and
`z = -SPAWN_DISTANCE = -12`; consequently every target in the live set
of any reachable state lies in that box. -/
theorem spawn_bounds_spec :
    (∀ (l : List TargetData) (r1 r2 : ℚ) (i : ℕ) (now : ℚ),
        ValidRand r1 → ValidRand r2 →
        InSpawnBox (generateTarget l r1 r2 i now).position) ∧
      (∀ s : AppState, Reachable s → ∀ t ∈ s.targets, InSpawnBox t.position) ∧
      SPAWN_AREA_WIDTH / 2 = 5 ∧ -SPAWN_DISTANCE = (-12 : ℚ) ∧ SPAWN_AREA_HEIGHT = 6 := by
  refine ⟨generateTarget_box, reachable_targets_box, ?_, ?_, ?_⟩
  · norm_num [SPAWN_AREA_WIDTH]
  · norm_num [SPAWN_DISTANCE]
  · norm_num [SPAWN_AREA_HEIGHT]

/-- C10, witness: the bound applied to a concrete draw, and the
reachable-state conjunct applied to the initial state. -/
theorem spawn_bounds_inst :
    InSpawnBox (generateTarget [] 0.5 0.5 0 0).position ∧
      ∀ t ∈ initialState.targets, InSpawnBox t.position :=
  ⟨spawn_bounds_spec.1 [] 0.5 0.5 0 0 (by norm_num [ValidRand]) (by norm_num [ValidRand]),
    spawn_bounds_spec.2.1 initialState Reachable.init⟩

end AimLab
